import Mathlib

/-!
Verification development for the agentic-fabriq CLI client
(`af_cli/commands/tools.py` and `af_cli/commands/applications.py`).

The commands are embedded as pure functions.  Network effects are made
explicit: each command returns the ordered list of HTTP calls it issues
(`NetCall`) together with its outcome, and collaborator responses
(connection listings, activation responses, poll results) are inputs.
-/

deriving instance DecidableEq for Except

namespace AfCli

/-- Python truthiness of an `Optional[str]` value: `None` and `""` are falsy. -/
def strTruthy : Option String → Bool
  | none => false
  | some s => !(s == "")

/-- Python `a or b` for an optional string with a string default
(`display_name or connection_id`). -/
def pyStrOr : Option String → String → String
  | none, d => d
  | some s, d => if s == "" then d else s

/-- Python `a or b` chaining on optional strings (`x.get(...) or y.get(...)`). -/
def pyOrOpt : Option String → Option String → Option String
  | none, b => b
  | some s, b => if s == "" then b else some s

/-- Python `s.lower()` as applied to tool names (ASCII identifiers),
written by structural recursion over the character list so that proofs
can evaluate it. -/
def pyLower (s : String) : String :=
  String.mk (s.data.map Char.toLower)

/-- Client configuration (`af_cli.core.config`), the fields the embedded
commands read. -/
structure Config where
  gateway_url : String
deriving DecidableEq, Repr

/-- `tool.startswith("google_") or tool == "gmail"`: membership in the
Google Workspace umbrella family, as tested throughout `tools.py`. -/
def isGoogleTool (tool : String) : Bool :=
  "google_".isPrefixOf tool || tool == "gmail"

/-- `api_tool_name` as computed in `add` (line 521) and `disconnect`
(line 748): Google-family tools all use the shared `google` namespace. -/
def apiBaseToolName (tool : String) : String :=
  if isGoogleTool tool then "google" else tool

/-- One HTTP call issued by a command, in the order the code issues them. -/
inductive NetCall where
  /-- `GET /api/v1/user-connections` -/
  | listConns
  /-- `POST /api/v1/user-connections` with the connection metadata. -/
  | connCreate (tool cid dname method : String)
  /-- `POST /api/v1/tools/{ns}/config?connection_id={cid}` with
  `{integration_token: tok}` (the Notion token path). -/
  | storeIntegrationToken (ns cid tok : String)
  /-- `POST /api/v1/tools/{ns}/connection?connection_id={cid}` with
  `{api_token: tok}` (the generic token path). -/
  | storeApiToken (ns cid tok : String)
  /-- `POST /api/v1/tools/{ns}/config?connection_id={cid}[&tool_type=...]`
  with OAuth-app credentials. -/
  | storeOAuthApp (ns cid : String) (toolType : Option String)
      (clientId clientSecret redirectUri : String)
  /-- `POST /api/v1/tools/{ns}/connect/initiate?connection_id={cid}...`. -/
  | oauthInitiate (ns cid : String) (toolType methodParam : Option String)
  /-- `DELETE /api/v1/tools/{ns}/connection?connection_id={cid}...`. -/
  | credDelete (ns cid : String) (toolType : Option String)
  /-- `DELETE /api/v1/user-connections/{cid}`. -/
  | connDelete (cid : String)
deriving DecidableEq, Repr

/-- The namespace component of a namespace-specific tool call, when any. -/
def credCallNs : NetCall → Option String
  | .storeIntegrationToken ns _ _ => some ns
  | .storeApiToken ns _ _ => some ns
  | .storeOAuthApp ns _ _ _ _ _ => some ns
  | .oauthInitiate ns _ _ _ => some ns
  | .credDelete ns _ _ => some ns
  | _ => none

/-- Named failure outcomes of `tools add`. -/
inductive AddError where
  /-- the bare umbrella name `google` is rejected, listing the members. -/
  | ambiguousTool
  /-- method outside `{api_credentials, oauth3, oauth}`. -/
  | invalidMethod
  /-- `oauth3` on a tool outside the allow-listed families. -/
  | unsupportedMethod
  /-- `api_credentials` with neither token nor (id, secret) pair. -/
  | missingCredentialInput
  /-- the deprecated `oauth` method. -/
  | deprecatedOAuth
deriving DecidableEq, Repr

/-- CLI arguments of `tools add`. -/
structure AddArgs where
  tool : String
  connection_id : String
  display_name : Option String
  method : String
  token : Option String
  client_id : Option String
  client_secret : Option String
  redirect_uri : Option String
deriving DecidableEq, Repr

/-- The `tools add` command (`tools.py` lines 406-583): validation, then
a connection-creation call, then method-specific credential storage.
Returns the issued calls in order and the outcome. -/
def addTool (cfg : Config) (a : AddArgs) : List NetCall × Except AddError Unit :=
  if pyLower a.tool == "google" then
    ([], .error .ambiguousTool)
  else if !(a.method == "api_credentials" || a.method == "oauth3" || a.method == "oauth") then
    ([], .error .invalidMethod)
  else if a.method == "oauth3"
      && !(isGoogleTool a.tool || a.tool == "slack" || a.tool == "notion") then
    ([], .error .unsupportedMethod)
  else if a.method == "api_credentials"
      && !(strTruthy a.token)
      && !(strTruthy a.client_id && strTruthy a.client_secret) then
    ([], .error .missingCredentialInput)
  else
    let createCall := NetCall.connCreate a.tool a.connection_id
      (pyStrOr a.display_name a.connection_id) a.method
    if a.method == "oauth3" then
      ([createCall], .ok ())
    else if a.method == "api_credentials" then
      let api_tool_name := apiBaseToolName a.tool
      if strTruthy a.token then
        if a.tool == "notion" then
          ([createCall,
            .storeIntegrationToken a.tool a.connection_id (a.token.getD "")], .ok ())
        else
          ([createCall,
            .storeApiToken a.tool a.connection_id (a.token.getD "")], .ok ())
      else if strTruthy a.client_id && strTruthy a.client_secret then
        let redirect := pyStrOr a.redirect_uri
          (cfg.gateway_url ++ "/api/v1/tools/" ++ api_tool_name ++ "/oauth/callback")
        let toolType := if api_tool_name == "google" then some a.tool else none
        ([createCall,
          .storeOAuthApp api_tool_name a.connection_id toolType
            (a.client_id.getD "") (a.client_secret.getD "") redirect], .ok ())
      else
        ([createCall], .ok ())
    else if a.method == "oauth" then
      ([createCall], .error .deprecatedOAuth)
    else
      ([createCall], .ok ())

/-- A connection record as returned by `GET /api/v1/user-connections`,
the fields the embedded commands read. -/
structure Conn where
  connection_id : String
  tool : String
  method : String
  connected : Bool
deriving DecidableEq, Repr

/-- The first-match scan `for conn in connections: if conn["connection_id"]
== connection_id: ...` used by `connect` and `disconnect`. -/
def findConn (conns : List Conn) (cid : String) : Option Conn :=
  conns.find? (fun c => c.connection_id == cid)

/-- `api_tool_name` as computed in `connect` (`tools.py` lines 622-630):
Google-family tools use `google_oauth` under `oauth3` and `google`
otherwise; Notion likewise splits `notion_oauth` / `notion`; every other
tool maps to its own identifier. -/
def resolveConnectNamespace (tool method : String) : String :=
  if isGoogleTool tool then
    if method == "oauth3" then "google_oauth" else "google"
  else if tool == "notion" then
    if method == "oauth3" then "notion_oauth" else "notion"
  else tool

/-- `tool_type_param` in `connect` (line 636): Google-family tools pass the
specific tool as an auxiliary routing parameter. -/
def resolveConnectToolType (tool : String) : Option String :=
  if isGoogleTool tool then some tool else none

/-- `method_param` in `connect` (line 639): `oauth3` is forwarded so the
backend uses platform credentials. -/
def resolveMethodParam (method : String) : Option String :=
  if method == "oauth3" then some method else none

/-- The initiate call issued by `connect` (lines 641-644) for a connection
record. -/
def initiateCall (conn : Conn) (cid : String) : NetCall :=
  .oauthInitiate (resolveConnectNamespace conn.tool conn.method) cid
    (resolveConnectToolType conn.tool) (resolveMethodParam conn.method)

/-- The initiate response; different tools use different field names for
the auth URL (`tools.py` lines 649-653). -/
structure InitiateResp where
  authorization_url : Option String
  auth_url : Option String
  oauth_url : Option String
deriving DecidableEq, Repr

/-- `result.get("authorization_url") or result.get("auth_url") or
result.get("oauth_url")` with Python truthiness. -/
def authUrlOf (r : InitiateResp) : Option String :=
  pyOrOpt r.authorization_url (pyOrOpt r.auth_url r.oauth_url)

/-- One poll attempt of the `connect` loop (lines 678-695): fetch the
connection listing, scan for the connection-id, read its `connected`
flag; an absent entry counts as not yet connected. -/
def connStep (poll : Nat → List Conn) (cid : String) (i : Nat) : Bool :=
  match findConn (poll i) cid with
  | some c => c.connected
  | none => false

/-- The bounded poll loop of `connect` (lines 673-695): up to `fuel`
attempts starting at index `cur`, stopping at the first successful
attempt.  Returns the indices of the attempts actually performed and
whether success was observed. -/
def pollLoop (step : Nat → Bool) : Nat → Nat → List Nat × Bool
  | 0, _ => ([], false)
  | fuel + 1, cur =>
    if step cur then ([cur], true)
    else
      let r := pollLoop step fuel (cur + 1)
      (cur :: r.1, r.2)

/-- Outcome of the `connect` command; the `Nat` on the terminal polling
states counts the poll attempts performed. -/
inductive ConnectOutcome where
  | success (attempts : Nat)
  | skipped
  | failNotFound
  | failNoAuthUrl
  | failTimeout (attempts : Nat)
deriving DecidableEq, Repr

/-- Collaborator responses consumed by one run of `connect`. -/
structure ConnectEnv where
  /-- body of the initial `GET /api/v1/user-connections`. -/
  conns : List Conn
  /-- the operator's answer to the re-authorization confirmation prompt. -/
  confirmYes : Bool
  /-- body of the initiate response. -/
  initResp : InitiateResp
  /-- body of the connection listing returned by poll attempt `i`. -/
  poll : Nat → List Conn

/-- The `tools connect` command (`tools.py` lines 586-705): look the
connection up, skip when already connected and the operator declines,
initiate OAuth, require an authorization URL, then poll the listing
endpoint at most 120 times for `connected = true`. -/
def connectCmd (env : ConnectEnv) (cid : String) (yes : Bool) :
    List NetCall × ConnectOutcome :=
  match findConn env.conns cid with
  | none => ([.listConns], .failNotFound)
  | some conn =>
    if conn.connected && !yes && !env.confirmYes then
      ([.listConns], .skipped)
    else
      let initCall := initiateCall conn cid
      if strTruthy (authUrlOf env.initResp) then
        let pr := pollLoop (connStep env.poll cid) 120 0
        ([.listConns, initCall] ++ pr.1.map (fun _ => NetCall.listConns),
          if pr.2 then .success pr.1.length else .failTimeout pr.1.length)
      else
        ([.listConns, initCall], .failNoAuthUrl)

/-- Outcome of the `tools disconnect` command. -/
inductive DisconnectOutcome where
  | success
  | cancelled
  | failNotFound
  | alreadyDisconnected
deriving DecidableEq, Repr

/-- `tool_type_param` in `disconnect` (line 751), keyed on the resolved
namespace being `google`. -/
def resolveDeleteToolType (tool : String) : Option String :=
  if apiBaseToolName tool == "google" then some tool else none

/-- The `tools disconnect` command (`tools.py` lines 708-764): look the
connection up, require `connected = true`, confirm unless forced, then
delete the stored credentials under the resolved namespace.  The
connection entry itself is not deleted. -/
def disconnectCmd (conns : List Conn) (cid : String) (force confirmYes : Bool) :
    List NetCall × DisconnectOutcome :=
  match findConn conns cid with
  | none => ([.listConns], .failNotFound)
  | some conn =>
    if !conn.connected then
      ([.listConns], .alreadyDisconnected)
    else if !force && !confirmYes then
      ([.listConns], .cancelled)
    else
      ([.listConns, .credDelete (apiBaseToolName conn.tool) cid
          (resolveDeleteToolType conn.tool)], .success)

/-- Modelled from the spec: the authorization service's handling of the
credential-deletion call (section 6, "delete connection credentials",
and section 4.3 disconnect) — the server-side implementation is out of
scope for the repository.  Stored credentials are removed so the entry
reports `connected = false`, and the connection entry itself persists. -/
def serverApplyCredDelete (conns : List Conn) (cid : String) : List Conn :=
  conns.map (fun c =>
    if c.connection_id == cid then { c with connected := false } else c)

/-- Body of a successful `POST /api/v1/applications/activate` response
(`applications.py` lines 158-169). -/
structure ActivateBody where
  app_id : String
  secret_key : String
  user_id : String
  tenant_id : String
  tool_connections : List (String × List String)
  created_at : String
deriving DecidableEq, Repr

/-- The record `connect_application` persists via
`save_application_config` (lines 163-173): the full activation body plus
the gateway URL. -/
structure AppConfigRecord where
  app_id : String
  secret_key : String
  user_id : String
  tenant_id : String
  tool_connections : List (String × List String)
  created_at : String
  gateway_url : String
deriving DecidableEq, Repr

/-- The record built from an activation body in `connect_application`. -/
def savedRecordOf (cfg : Config) (b : ActivateBody) : AppConfigRecord :=
  { app_id := b.app_id
    secret_key := b.secret_key
    user_id := b.user_id
    tenant_id := b.tenant_id
    tool_connections := b.tool_connections
    created_at := b.created_at
    gateway_url := cfg.gateway_url }

/-- Outcome of `applications connect`. -/
inductive ActivateOutcome where
  | unauthenticated
  | tokenInvalidOrExpired
  | tokenOwnershipMismatch
  | otherFailure (status : Nat)
  | activated (r : AppConfigRecord)
deriving DecidableEq, Repr

/-- The activate response as observed by the client: a status code, and
the parsed body (read only on 201). -/
structure ActivateResp where
  status : Nat
  body : ActivateBody
deriving DecidableEq, Repr

/-- The `applications connect` command (`applications.py` lines 110-187):
auth check, then one activate call; 404 and 403 are translated to the
token errors, any other non-201 status is surfaced, and only on 201 is
the full record (secret included) written to local state.  The first
component is the local state written, if any. -/
def connectApplication (cfg : Config) (authenticated : Bool)
    (resp : ActivateResp) : Option AppConfigRecord × ActivateOutcome :=
  if !authenticated then (none, .unauthenticated)
  else if resp.status == 404 then (none, .tokenInvalidOrExpired)
  else if resp.status == 403 then (none, .tokenOwnershipMismatch)
  else if !(resp.status == 201) then (none, .otherFailure resp.status)
  else
    let r := savedRecordOf cfg resp.body
    (some r, .activated r)

/-- A locally cached application record, as listed by
`list_applications` from `~/.af/applications/`. -/
structure LocalApp where
  app_id : String
  created_at : String
  tool_connections : List (String × List String)
deriving DecidableEq, Repr

/-- Result of the server fetch in `list_applications`: either the
request raised (`httpx.HTTPError`), or a response with a status code and
the `app_id`s of the listed applications. -/
inductive FetchResult where
  | networkError
  | response (status : Nat) (serverIds : List String)
deriving DecidableEq, Repr

/-- The sync pass of `applications list` (`applications.py` lines
202-241): when syncing and authenticated, fetch the server list; on a
200 response delete every local record whose `app_id` is absent from
the server set; on `httpx.HTTPError` warn and keep the local list; on
any other status (or if sync is off / unauthenticated) keep the local
list silently.  Returns (remaining local records, deleted app ids,
whether the sync warning was printed). -/
def syncApplications (locals : List LocalApp) (authenticated sync : Bool)
    (fetch : FetchResult) : List LocalApp × List String × Bool :=
  if sync && authenticated then
    match fetch with
    | .networkError => (locals, [], true)
    | .response status serverIds =>
      if status == 200 then
        (locals.filter (fun a => serverIds.contains a.app_id),
         (locals.filter (fun a => !(serverIds.contains a.app_id))).map
           (fun a => a.app_id),
         false)
      else (locals, [], false)
  else (locals, [], false)

/-- Whether a namespace-specific call targets one of the shared Google
umbrella namespaces (`google`, or `google_oauth` for platform OAuth);
calls without a namespace component count vacuously. -/
def isUmbrellaCall (c : NetCall) : Bool :=
  match credCallNs c with
  | some ns => ns == "google" || ns == "google_oauth"
  | none => true

/-- Demo configuration used by concrete instances. -/
def cfgDemo : Config := { gateway_url := "http://gw" }

/-- Demo `add` arguments: a Google-family tool with simple token auth. -/
def argsGoogleDocsToken : AddArgs :=
  { tool := "google_docs", connection_id := "d1", display_name := none,
    method := "api_credentials", token := some "tok", client_id := none,
    client_secret := none, redirect_uri := none }

/-- Demo `add` arguments: Gmail with an own OAuth app (id, secret). -/
def argsGmailClient : AddArgs :=
  { tool := "gmail", connection_id := "g1", display_name := none,
    method := "api_credentials", token := none, client_id := some "cid",
    client_secret := some "sec", redirect_uri := none }

/-- Demo `add` arguments: `oauth3` on a tool outside the allow-list. -/
def argsGithubOauth3 : AddArgs :=
  { tool := "github", connection_id := "h1", display_name := none,
    method := "oauth3", token := none, client_id := none,
    client_secret := none, redirect_uri := none }

/-- Demo `add` arguments: `api_credentials` with only a client id. -/
def argsGithubNoCreds : AddArgs :=
  { tool := "github", connection_id := "h2", display_name := none,
    method := "api_credentials", token := none, client_id := some "cid",
    client_secret := none, redirect_uri := none }

/-- Demo `add` arguments: the deprecated `oauth` method on Slack. -/
def argsSlackOauth : AddArgs :=
  { tool := "slack", connection_id := "s1", display_name := some "My Slack",
    method := "oauth", token := none, client_id := none,
    client_secret := none, redirect_uri := none }

/-- Demo connection record, not yet connected. -/
def connDemo : Conn :=
  { connection_id := "c1", tool := "slack", method := "oauth3", connected := false }

/-- Demo connection record, connected. -/
def connDemoUp : Conn :=
  { connection_id := "c1", tool := "slack", method := "oauth3", connected := true }

/-- Demo `connect` environment whose polls never report success. -/
def envNever : ConnectEnv :=
  { conns := [connDemo], confirmYes := false,
    initResp := { authorization_url := some "http://auth",
                  auth_url := none, oauth_url := none },
    poll := fun _ => [connDemo] }

/-- Demo `connect` environment whose sixth poll reports success. -/
def envSixth : ConnectEnv :=
  { conns := [connDemo], confirmYes := false,
    initResp := { authorization_url := some "http://auth",
                  auth_url := none, oauth_url := none },
    poll := fun i => if i == 5 then [connDemoUp] else [connDemo] }

/-- Demo activation-response body. -/
def bodyDemo : ActivateBody :=
  { app_id := "bot", secret_key := "sk-1", user_id := "u1", tenant_id := "t1",
    tool_connections := [("slack-conn", ["chat:write"])], created_at := "2026-01-01" }

/-- Demo local application caches `A`, `B`, `C`. -/
def demoA : LocalApp := { app_id := "A", created_at := "t", tool_connections := [] }

/-- Demo local application cache entry `B`. -/
def demoB : LocalApp := { app_id := "B", created_at := "t", tool_connections := [] }

/-- Demo local application cache entry `C`. -/
def demoC : LocalApp := { app_id := "C", created_at := "t", tool_connections := [] }

theorem map_const_replicate {α β : Type} (l : List α) (b : β) :
    l.map (fun _ => b) = List.replicate l.length b := by
  induction l <;> simp [*, List.replicate_succ]

theorem pollLoop_timeout_eq (step : Nat → Bool) (h : ∀ i, step i = false) :
    ∀ fuel cur, pollLoop step fuel cur = (List.range' cur fuel, false) := by
  intro fuel
  induction fuel with
  | zero => intro cur; simp [pollLoop]
  | succ n ih => intro cur; simp [pollLoop, h cur, ih, List.range'_succ]

theorem pollLoop_success_eq (step : Nat → Bool) :
    ∀ j fuel cur, (∀ i, i < j → step (cur + i) = false) → step (cur + j) = true →
      j < fuel → pollLoop step fuel cur = (List.range' cur (j + 1), true) := by
  intro j
  induction j with
  | zero =>
    intro fuel cur hlt hj hf
    match fuel, hf with
    | fuel + 1, _ =>
      have h0 : step cur = true := by simpa using hj
      simp [pollLoop, h0, List.range'_succ]
  | succ j ih =>
    intro fuel cur hlt hj hf
    match fuel, hf with
    | fuel + 1, hf =>
      have h0 : step cur = false := by simpa using hlt 0 (Nat.succ_pos j)
      have hlt2 : ∀ i, i < j → step (cur + 1 + i) = false := by
        intro i hi
        have h := hlt (i + 1) (Nat.succ_lt_succ hi)
        rwa [show cur + (i + 1) = cur + 1 + i by omega] at h
      have hj2 : step (cur + 1 + j) = true := by
        rwa [show cur + 1 + j = cur + (j + 1) by omega]
      have hr := ih fuel (cur + 1) hlt2 hj2 (Nat.lt_of_succ_lt_succ hf)
      simp [pollLoop, h0, hr, List.range'_succ]

/-- C3: for every OAuth handshake in which no poll ever observes
`connected = true` for the target connection-id, the polling loop
performs exactly 120 status-check attempts (120 further
connection-listing calls after the initiate call) and then terminates,
reporting the authorization timeout as the outcome. -/
theorem connect_poll_timeout (env : ConnectEnv) (cid : String) (yes : Bool)
    (conn : Conn) (h1 : findConn env.conns cid = some conn)
    (h2 : conn.connected = false)
    (h3 : strTruthy (authUrlOf env.initResp) = true)
    (h4 : ∀ i, connStep env.poll cid i = false) :
    connectCmd env cid yes =
      ([.listConns, initiateCall conn cid] ++ List.replicate 120 .listConns,
        .failTimeout 120) := by
  unfold connectCmd
  simp [h1, h2, h3, pollLoop_timeout_eq _ h4 120 0, map_const_replicate]

/-- C3 witness: a server that never reports `connected = true` makes the
handshake time out after exactly 120 poll attempts. -/
theorem connect_poll_timeout_witness :
    connectCmd envNever "c1" false =
      ([.listConns, initiateCall connDemo "c1"] ++ List.replicate 120 .listConns,
        .failTimeout 120) :=
  connect_poll_timeout envNever "c1" false connDemo rfl rfl rfl (fun _ => rfl)

/-- C4: for every OAuth handshake where polls `1` through `k - 1` observe
`connected = false` and poll `k` (with `1 ≤ k ≤ 120`) observes
`connected = true`, the handshake reports success after exactly `k` poll
attempts and issues no further polls (the trace carries exactly `k`
listing calls after the initiate call). -/
theorem connect_poll_success (env : ConnectEnv) (cid : String) (yes : Bool)
    (conn : Conn) (k : Nat) (h1 : findConn env.conns cid = some conn)
    (h2 : conn.connected = false)
    (h3 : strTruthy (authUrlOf env.initResp) = true)
    (hk1 : 1 ≤ k) (hk2 : k ≤ 120)
    (h7 : ∀ i, i < k - 1 → connStep env.poll cid i = false)
    (h8 : connStep env.poll cid (k - 1) = true) :
    connectCmd env cid yes =
      ([.listConns, initiateCall conn cid] ++ List.replicate k .listConns,
        .success k) := by
  have hp := pollLoop_success_eq (connStep env.poll cid) (k - 1) 120 0
    (fun i hi => by simpa using h7 i hi) (by simpa using h8) (by omega)
  rw [show k - 1 + 1 = k by omega] at hp
  unfold connectCmd
  simp [h1, h2, h3, hp, map_const_replicate]

/-- C4 witness: with `connected = false` on polls 1-5 and
`connected = true` on poll 6, the handshake succeeds after exactly 6
attempts. -/
theorem connect_poll_success_witness :
    connectCmd envSixth "c1" false =
      ([.listConns, initiateCall connDemo "c1"] ++ List.replicate 6 .listConns,
        .success 6) :=
  connect_poll_success envSixth "c1" false connDemo 6 rfl rfl rfl
    (by decide) (by decide) (by decide) (by decide)

theorem findConn_serverApplyCredDelete (conns : List Conn) (cid : String)
    (conn : Conn) (h : findConn conns cid = some conn) :
    findConn (serverApplyCredDelete conns cid) cid
      = some { conn with connected := false } := by
  induction conns with
  | nil => simp [findConn] at h
  | cons c cs ih =>
    unfold findConn serverApplyCredDelete at *
    rw [List.map_cons]
    by_cases hc : (c.connection_id == cid) = true
    · have hhead : List.find? (fun x => x.connection_id == cid) (c :: cs) = some c :=
        List.find?_cons_of_pos _ hc
      rw [hhead] at h
      have hhead2 : List.find? (fun x => x.connection_id == cid)
          ({ c with connected := false } ::
            cs.map (fun x =>
              if x.connection_id == cid then { x with connected := false } else x))
          = some { c with connected := false } :=
        List.find?_cons_of_pos _ (by simpa using hc)
      rw [if_pos hc, hhead2, Option.some_inj.mp h]
    · have hhead : List.find? (fun x => x.connection_id == cid) (c :: cs)
          = List.find? (fun x => x.connection_id == cid) cs :=
        List.find?_cons_of_neg _ (by simpa using hc)
      rw [hhead] at h
      have hhead2 : List.find? (fun x => x.connection_id == cid)
          (c :: cs.map (fun x =>
              if x.connection_id == cid then { x with connected := false } else x))
          = List.find? (fun x => x.connection_id == cid)
              (cs.map (fun x =>
                if x.connection_id == cid then { x with connected := false } else x)) :=
        List.find?_cons_of_neg _ (by simpa using hc)
      rw [if_neg hc, hhead2]
      exact ih h

/-- C9: disconnect succeeds only on a connection currently reporting
`connected = true` (otherwise it fails with the already-disconnected
error, not a crash); after a successful disconnect the connection entry
persists (no longer connected) in the server state modelled from the
spec, so a second disconnect in a row yields the already-disconnected
error. -/
theorem disconnect_twice (conns : List Conn) (cid : String) (conn : Conn)
    (h1 : findConn conns cid = some conn) :
    (conn.connected = false →
      ∀ force confirm, disconnectCmd conns cid force confirm
        = ([.listConns], .alreadyDisconnected))
    ∧ (conn.connected = true →
      disconnectCmd conns cid true false
          = ([.listConns, .credDelete (apiBaseToolName conn.tool) cid
              (resolveDeleteToolType conn.tool)], .success)
        ∧ findConn (serverApplyCredDelete conns cid) cid
            = some { conn with connected := false }
        ∧ disconnectCmd (serverApplyCredDelete conns cid) cid true false
            = ([.listConns], .alreadyDisconnected)) := by
  constructor
  · intro hdown force confirm
    unfold disconnectCmd
    simp [h1, hdown]
  · intro hup
    have hfind := findConn_serverApplyCredDelete conns cid conn h1
    refine ⟨?_, hfind, ?_⟩
    · unfold disconnectCmd
      simp [h1, hup]
    · unfold disconnectCmd
      simp [hfind]

/-- C9 witness: on a connected Slack connection, disconnect succeeds and
issues the credential-deletion call; a second disconnect on the
resulting state reports already-disconnected. -/
theorem disconnect_twice_witness :
    disconnectCmd [connDemoUp] "c1" true false
        = ([.listConns, .credDelete "slack" "c1" none], .success)
      ∧ disconnectCmd (serverApplyCredDelete [connDemoUp] "c1") "c1" true false
        = ([.listConns], .alreadyDisconnected) := by
  have h := (disconnect_twice [connDemoUp] "c1" connDemoUp rfl).2 rfl
  exact ⟨h.1, h.2.2⟩

/-- C2: for every activation attempt by an authenticated operator, a 404
response fails with the invalid-or-expired-token error, a 403 response
fails with the ownership-mismatch error, a 201 response persists the
full Application record (secret included) to the local store, and local
state is written exactly on an authenticated 201 response. -/
theorem activation_outcomes (cfg : Config) (auth : Bool) (resp : ActivateResp) :
    connectApplication cfg true resp =
      (if resp.status == 404 then (none, .tokenInvalidOrExpired)
       else if resp.status == 403 then (none, .tokenOwnershipMismatch)
       else if resp.status == 201 then
         (some (savedRecordOf cfg resp.body), .activated (savedRecordOf cfg resp.body))
       else (none, .otherFailure resp.status))
    ∧ (savedRecordOf cfg resp.body).secret_key = resp.body.secret_key
    ∧ ((connectApplication cfg auth resp).1.isSome
        ↔ (auth = true ∧ resp.status = 201)) := by
  refine ⟨?_, rfl, ?_⟩
  · by_cases h4 : (resp.status == 404) = true <;>
      by_cases h3 : (resp.status == 403) = true <;>
        by_cases h1 : (resp.status == 201) = true <;>
          simp [connectApplication, h4, h3, h1]
  · cases auth with
    | false => simp [connectApplication]
    | true =>
      by_cases h4 : (resp.status == 404) = true
      · have := beq_iff_eq.mp h4
        simp [connectApplication, h4, this]
      · by_cases h3 : (resp.status == 403) = true
        · have := beq_iff_eq.mp h3
          simp [connectApplication, h4, h3, this]
        · by_cases h1 : (resp.status == 201) = true
          · simp [connectApplication, h4, h3, h1, beq_iff_eq.mp h1]
          · have hne : ¬ resp.status = 201 := fun he => h1 (beq_iff_eq.mpr he)
            simp [connectApplication, h4, h3, h1, hne]

/-- C6: for every local cache and every successfully fetched server set,
reconciliation deletes exactly the locally cached entries whose
identifier is absent from the server set, returns the rest of the cache
unchanged and in order (a sublist of the local cache, so no entry is
ever created from server data), and in particular local `{A, B, C}`
against server `{A, C}` deletes exactly `{B}` and returns `{A, C}`. -/
theorem reconcile_deletes_orphans (locals : List LocalApp) (ids : List String) :
    (syncApplications locals true true (.response 200 ids)).1
        = locals.filter (fun a => ids.contains a.app_id)
    ∧ (syncApplications locals true true (.response 200 ids)).2.1
        = (locals.filter (fun a => !(ids.contains a.app_id))).map (fun a => a.app_id)
    ∧ (syncApplications locals true true (.response 200 ids)).1.Sublist locals
    ∧ syncApplications [demoA, demoB, demoC] true true (.response 200 ["A", "C"])
        = ([demoA, demoC], ["B"], false) := by
  refine ⟨rfl, rfl, ?_, by decide⟩
  show (locals.filter (fun a => ids.contains a.app_id)).Sublist locals
  exact List.filter_sublist locals

/-- C5 counterexample: on a non-success (HTTP 500) fetch response the
local cache `{A, B, C}` is indeed returned unmodified with nothing
deleted, but no warning is surfaced — the sync failure is silent, so
the claim's warning clause fails. -/
theorem reconcile_counterexample :
    syncApplications [demoA, demoB, demoC] true true (.response 500 [])
        = ([demoA, demoB, demoC], [], false)
    ∧ ¬ ((syncApplications [demoA, demoB, demoC] true true (.response 500 [])).2.2
        = true) := by
  exact ⟨by decide, by decide⟩

/-- C5 (amended): for every reconciliation run in which the server fetch
fails (network error or any non-success response), no local cache entry
is deleted and the full local cache is returned unmodified; a warning
is surfaced exactly when the fetch raised a network error — a
non-success status response is skipped silently. -/
theorem reconcile_skips_on_failed_fetch (locals : List LocalApp)
    (fetch : FetchResult)
    (h : ∀ status ids, fetch = .response status ids → status ≠ 200) :
    (syncApplications locals true true fetch).1 = locals
    ∧ (syncApplications locals true true fetch).2.1 = []
    ∧ ((syncApplications locals true true fetch).2.2 = true
        ↔ fetch = .networkError) := by
  cases fetch with
  | networkError => simp [syncApplications]
  | response status ids =>
    have hne := h status ids rfl
    have hb : (status == 200) = false := beq_eq_false_iff_ne.mpr hne
    simp [syncApplications, hb]

/-- C5 witness: a network-error fetch leaves the cache untouched, deletes
nothing, and does surface the warning. -/
theorem reconcile_skips_on_failed_fetch_witness :
    (syncApplications [demoA, demoB, demoC] true true .networkError).1
        = [demoA, demoB, demoC]
    ∧ (syncApplications [demoA, demoB, demoC] true true .networkError).2.1 = []
    ∧ ((syncApplications [demoA, demoB, demoC] true true .networkError).2.2 = true
        ↔ FetchResult.networkError = FetchResult.networkError) :=
  reconcile_skips_on_failed_fetch [demoA, demoB, demoC] .networkError
    (fun _ _ h => by cases h)

/-- C7: for every add-connection request with method `oauth3` on a tool
outside the allow-listed families (Google Workspace tools, Slack,
Notion; the bare umbrella name `google` is covered by the separate
ambiguous-tool rejection), the operation fails with the
unsupported-method error and the call trace is empty — no network call
is made, in particular no connection-creation request. -/
theorem oauth3_allowlist_guard (cfg : Config) (a : AddArgs)
    (hm : a.method = "oauth3")
    (hal : (isGoogleTool a.tool || a.tool == "slack" || a.tool == "notion") = false)
    (hlow : pyLower a.tool ≠ "google") :
    addTool cfg a = ([], .error .unsupportedMethod) := by
  have hg : (pyLower a.tool == "google") = false := beq_eq_false_iff_ne.mpr hlow
  unfold addTool
  simp [hg, hm, hal]

/-- C7 witness: `oauth3` on `github` fails with the unsupported-method
error without issuing any call. -/
theorem oauth3_allowlist_guard_witness :
    addTool cfgDemo argsGithubOauth3 = ([], .error .unsupportedMethod) :=
  oauth3_allowlist_guard cfgDemo argsGithubOauth3 rfl (by decide) (by decide)

/-- C8: for every add-connection request with method `api_credentials`
where neither a bearer token nor a complete (client id, client secret)
pair is supplied, the operation fails with the missing-credential-input
error and the call trace is empty — in particular no credential-storage
call is issued. -/
theorem api_credentials_requires_input (cfg : Config) (a : AddArgs)
    (hm : a.method = "api_credentials")
    (htok : strTruthy a.token = false)
    (hcred : (strTruthy a.client_id && strTruthy a.client_secret) = false)
    (hlow : pyLower a.tool ≠ "google") :
    addTool cfg a = ([], .error .missingCredentialInput) := by
  have hg : (pyLower a.tool == "google") = false := beq_eq_false_iff_ne.mpr hlow
  unfold addTool
  simp [hg, hm, htok, hcred]

/-- C8 witness: `api_credentials` on `github` with only a client id (no
token, no secret) fails with the missing-credential-input error and an
empty call trace. -/
theorem api_credentials_requires_input_witness :
    addTool cfgDemo argsGithubNoCreds = ([], .error .missingCredentialInput) :=
  api_credentials_requires_input cfgDemo argsGithubNoCreds rfl (by decide)
    (by decide) (by decide)

/-- C10: for every add-connection request with the deprecated method
`oauth` (on a tool other than the rejected bare name `google`), the
connection-creation call is issued first and only then is the
deprecation error reported, so the failed operation leaves an
unconfigured connection entry behind on the server. -/
theorem deprecated_oauth_creates_entry (cfg : Config) (a : AddArgs)
    (hm : a.method = "oauth") (hlow : pyLower a.tool ≠ "google") :
    addTool cfg a =
      ([.connCreate a.tool a.connection_id
          (pyStrOr a.display_name a.connection_id) "oauth"],
        .error .deprecatedOAuth) := by
  have hg : (pyLower a.tool == "google") = false := beq_eq_false_iff_ne.mpr hlow
  unfold addTool
  simp [hg, hm]

/-- C10 witness: adding a Slack connection with method `oauth` issues the
connection-creation call and then fails with the deprecation error. -/
theorem deprecated_oauth_creates_entry_witness :
    addTool cfgDemo argsSlackOauth =
      ([.connCreate "slack" "s1" "My Slack" "oauth"], .error .deprecatedOAuth) :=
  deprecated_oauth_creates_entry cfgDemo argsSlackOauth rfl (by decide)

/-- C1 counterexample: adding `google_docs` with `api_credentials` and a
simple bearer token stores the credential under the member-specific
namespace `google_docs` (endpoint `/api/v1/tools/google_docs/connection`)
with no auxiliary routing parameter — not under the shared umbrella
namespace — so the claim fails on this credential-storage resolution. -/
theorem umbrella_namespace_counterexample :
    (addTool cfgDemo argsGoogleDocsToken).1 =
      [.connCreate "google_docs" "d1" "d1" "api_credentials",
       .storeApiToken "google_docs" "d1" "tok"]
    ∧ ¬ (∀ c ∈ (addTool cfgDemo argsGoogleDocsToken).1, isUmbrellaCall c = true) :=
  ⟨by decide, by decide⟩

/-- C1 (amended): for every tool in the Google umbrella family, OAuth
initiation resolves to a shared umbrella namespace (`google_oauth` for
platform OAuth, `google` otherwise), credential deletion resolves to the
umbrella namespace `google`, and OAuth-app (client id/secret) credential
storage stores under the umbrella namespace `google` — each passing the
specific tool as the auxiliary `tool_type` routing parameter; the
simple-token credential-storage path, however, targets the
member-specific tool identifier (see the counterexample). -/
theorem umbrella_namespace_resolution (tool method : String) (cfg : Config)
    (a : AddArgs) (hg : isGoogleTool tool = true)
    (ht : a.tool = tool) (hm : a.method = "api_credentials")
    (htok : strTruthy a.token = false)
    (hcred : (strTruthy a.client_id && strTruthy a.client_secret) = true)
    (hlow : pyLower tool ≠ "google") :
    (resolveConnectNamespace tool method = "google_oauth"
      ∨ resolveConnectNamespace tool method = "google")
    ∧ resolveConnectToolType tool = some tool
    ∧ apiBaseToolName tool = "google"
    ∧ resolveDeleteToolType tool = some tool
    ∧ (addTool cfg a).1 =
        [.connCreate tool a.connection_id
            (pyStrOr a.display_name a.connection_id) "api_credentials",
         .storeOAuthApp "google" a.connection_id (some tool)
            (a.client_id.getD "") (a.client_secret.getD "")
            (pyStrOr a.redirect_uri
              (cfg.gateway_url ++ "/api/v1/tools/" ++ "google" ++ "/oauth/callback"))] := by
  subst ht
  have hns : apiBaseToolName a.tool = "google" := by simp [apiBaseToolName, hg]
  refine ⟨?_, ?_, hns, ?_, ?_⟩
  · by_cases h : (method == "oauth3") = true
    · exact Or.inl (by simp [resolveConnectNamespace, hg, h])
    · exact Or.inr (by simp [resolveConnectNamespace, hg, h])
  · simp [resolveConnectToolType, hg]
  · simp [resolveDeleteToolType, apiBaseToolName, hg]
  · have hglow : (pyLower a.tool == "google") = false := beq_eq_false_iff_ne.mpr hlow
    unfold addTool
    simp [hglow, hm, htok, hcred, hns]

/-- C1 witness: for Gmail with an own OAuth app, initiation resolves to
`google_oauth`/`google`, deletion to `google`, and the OAuth-app
credential call stores under `google` with `tool_type=gmail`. -/
theorem umbrella_namespace_resolution_witness :
    (resolveConnectNamespace "gmail" "oauth3" = "google_oauth"
      ∨ resolveConnectNamespace "gmail" "oauth3" = "google")
    ∧ resolveConnectToolType "gmail" = some "gmail"
    ∧ apiBaseToolName "gmail" = "google"
    ∧ resolveDeleteToolType "gmail" = some "gmail"
    ∧ (addTool cfgDemo argsGmailClient).1 =
        [.connCreate "gmail" "g1" (pyStrOr none "g1") "api_credentials",
         .storeOAuthApp "google" "g1" (some "gmail") "cid" "sec"
            (pyStrOr none
              (cfgDemo.gateway_url ++ "/api/v1/tools/" ++ "google" ++ "/oauth/callback"))] :=
  umbrella_namespace_resolution "gmail" "oauth3" cfgDemo argsGmailClient
    (by decide) rfl rfl (by decide) (by decide) (by decide)

end AfCli
